import Mathlib

/-!
Verification of the Hayroll C-to-Rust validation pipeline.

The development embeds the pipeline sources shallowly:

* `Preprocessing` — src/preprocessing.py: the flag-subset combinator.
* `PyHeap` — the same combinator over an explicit object heap, to settle
  whether the mutable default argument of the nested helper leaks state
  between calls.
* `TestRunner` — src/test_runner.py: the per-program pipeline (C build and
  tests per flag combination, transpile, Rust rebuild and tests per flag
  combination) and the driver run_tests.
* `Bench` — benchmark.py: the single-pass build/transpile/rebuild/link/execute
  loop with its failed_stage bookkeeping.
* `Scripts` — scripts/run_tests.py: the summary block of its finally clause.

External commands are modelled by an oracle mapping a command string and a
working directory to the observed process behaviour; all functions of the
sources become total functions of that oracle.
-/

namespace Preprocessing

/-- Pure rendering of the nested helper recursive_update inside
get_compile_flag_combinations (src/preprocessing.py, lines 24-29): the branch
that excludes the current flag is explored first, then the branch that
includes it; when the flag list is exhausted the current combination is
emitted. The Python index i into compile_flags is rendered as structural
recursion on the remaining suffix of the flag list. -/
def recursive_update (compile_flags : List String) (current_combination : List String) :
    List (List String) :=
  match compile_flags with
  | [] => [current_combination]
  | flag :: rest =>
      recursive_update rest current_combination ++
        recursive_update rest (current_combination ++ [flag])

/-- get_compile_flag_combinations (src/preprocessing.py, lines 11-32): every
subset of the flag list, each rendered as a space-joined string
(Python " ".join). -/
def get_compile_flag_combinations (compile_flags : List String) : List String :=
  (recursive_update compile_flags []).map (fun c => String.intercalate " " c)

end Preprocessing

namespace PyHeap

/-- A store of Python list-of-string objects; a reference is an index into the
store. This is the object model needed to speak about in-place mutation of the
default-argument object of recursive_update. -/
structure Heap where
  cells : List (List String)

/-- Dereference a list object (reading an unallocated reference is benign
here and never exercised by the embedded code). -/
def Heap.read (h : Heap) (r : Nat) : List String := h.cells.getD r []

/-- Allocation of a fresh list object, as performed by the Python list
concatenation current_combination + [flag]. -/
def Heap.alloc (h : Heap) (v : List String) : Heap × Nat :=
  (⟨h.cells ++ [v]⟩, h.cells.length)

/-- recursive_update over the object heap: curRef is the reference held by
the parameter current_combination (on the outermost call, the reference to
the mutable default-argument object), and acc collects the references that
compile_flag_combinations.append stores. The code only ever reads curRef and
allocates fresh objects; this definition mirrors exactly those operations, so
that non-mutation of the default object is a theorem, not an assumption. -/
def recursive_update (rest : List String) (curRef : Nat) (acc : List Nat) (h : Heap) :
    List Nat × Heap :=
  match rest with
  | [] => (acc ++ [curRef], h)
  | flag :: tail =>
      let r₁ := recursive_update tail curRef acc h
      let a := r₁.2.alloc (r₁.2.read curRef ++ [flag])
      recursive_update tail a.2 r₁.1 a.1

/-- get_compile_flag_combinations with the default-argument object made
explicit: defaultRef is the list object bound as the default of
current_combination and h is the heap in which the call happens. Returns the
joined strings together with the post-call heap. -/
def get_compile_flag_combinations (compile_flags : List String) (defaultRef : Nat)
    (h : Heap) : List String × Heap :=
  let r := recursive_update compile_flags defaultRef [] h
  (r.1.map (fun ref => String.intercalate " " (r.2.read ref)), r.2)

end PyHeap

namespace PyStr

/-- Splitting a string at every occurrence of a single separator character,
worker over the character list. -/
def splitCharAux (sep : Char) : List Char → List Char → List (List Char)
  | [], cur => [cur.reverse]
  | c :: rest, cur =>
      if c = sep then cur.reverse :: splitCharAux sep rest []
      else splitCharAux sep rest (c :: cur)

/-- Embeds Python str.split("x") for the one-character separators the runner
uses ("/", ".", " "). -/
def splitOnChar (sep : Char) (s : String) : List String :=
  (splitCharAux sep s.data []).map (fun l => String.mk l)

/-- Bool test that the second character list starts with the first. -/
def beginsWith : List Char → List Char → Bool
  | [], _ => true
  | _ :: _, [] => false
  | p :: ps, c :: cs => p == c && beginsWith ps cs

/-- Embeds Python str.startswith. -/
def pyStartsWith (s pat : String) : Bool := beginsWith pat.data s.data

/-- Left-to-right replacement of every non-overlapping occurrence of pat by
repl, by fuel-bounded recursion (the fuel is the length of the subject, which
suffices because every step consumes at least one character). Embeds Python
str.replace for non-empty patterns, the only use here being "-D". -/
def replaceAux (pat repl : List Char) : Nat → List Char → List Char
  | 0, xs => xs
  | _ + 1, [] => []
  | fuel + 1, c :: rest =>
      if beginsWith pat (c :: rest) && !pat.isEmpty then
        repl ++ replaceAux pat repl fuel ((c :: rest).drop pat.length)
      else c :: replaceAux pat repl fuel rest

/-- Embeds Python str.replace. -/
def pyReplace (s pat repl : String) : String :=
  ⟨replaceAux pat.data repl.data s.data.length s.data⟩

end PyStr

namespace TestRunner

/-- Observable behaviour of one subprocess.run invocation: normal exit with a
return code and captured output, expiry of the timeout, or any other raised
exception with its message (src/test_runner.py, lines 27-44). -/
inductive ExecResult where
  | exited (returncode : Int) (stdout stderr : String)
  | timeoutExpired
  | raised (msg : String)
deriving DecidableEq

/-- The external world: what subprocess.run observes for a given command
executed in a given working directory. -/
def Env : Type := String → String → ExecResult

/-- Status as constructed throughout src/test_runner.py: a pass/fail flag with
captured output, defaulting to empty strings. (models.py declares Status as a
two-member enumeration, but every construction site in test_runner.py passes
the keyword fields passed, stdout, stderr; the embedding follows the
construction sites, which are the code the claims cite.) -/
structure Status where
  passed : Bool
  stdout : String := ""
  stderr : String := ""
deriving DecidableEq, Inhabited

/-- CompileResult with the fields test_runner.py populates. -/
structure CompileResult where
  compile_flag : String
  status : Status
deriving DecidableEq, Inhabited

/-- SingleTestResult with the fields test_runner.py populates. -/
structure SingleTestResult where
  test_file : String
  status : Status
deriving DecidableEq, Inhabited

/-- TestResults: per-flag-combination aggregate (models.py plus the status
field test_runner.py adds at both construction sites). -/
structure TestResults where
  status : Status
  compile_result : CompileResult
  test_results : List SingleTestResult
deriving DecidableEq, Inhabited

/-- ProgramMetadata (models.py, lines 12-27). -/
structure ProgramMetadata where
  name : String
  path : String
  tests : List String
  compile_flags : List String
deriving DecidableEq, Inhabited

/-- ProgramResults with the fields the constructor call in run_tests
(src/test_runner.py, lines 218-226) populates. -/
structure ProgramResults where
  name : String
  status : Status
  c_test_results : List TestResults
  transpile_results : Status
  rust_test_results : List TestResults
deriving DecidableEq, Inhabited

/-- Python pathlib Path(test_file).stem as used by the runner: the final path
component without its last extension. Test files here are plain names such as
"test_foo.c", for which this agrees with pathlib. -/
def stem (s : String) : String :=
  let base := (PyStr.splitOnChar '/' s).getLastD s
  match PyStr.splitOnChar '.' base with
  | [] => base
  | [_] => base
  | parts => String.intercalate "." parts.dropLast

/-- run_command (src/test_runner.py, lines 23-44): a total function of the
oracle; a non-zero exit, a timeout and a raised exception all become a Status
with passed = false, never an escaping exception. -/
def run_command (env : Env) (command : String) (program_path : String) : Status :=
  match env command program_path with
  | .exited returncode stdout stderr =>
      { passed := returncode == 0, stdout := stdout, stderr := stderr }
  | .timeoutExpired => { passed := false, stderr := "Command timed out" }
  | .raised msg => { passed := false, stderr := "Command failed: " ++ msg }

/-- compile_c_program (src/test_runner.py, lines 47-56): make clean, then the
bear-wrapped make; only the status of the latter is kept. -/
def compile_c_program (env : Env) (compile_flag : String) (program_path : String) :
    CompileResult :=
  let _ := run_command env "make clean" program_path
  let status :=
    run_command env ("bear -- make DEFINES=\"" ++ compile_flag ++ "\"") program_path
  { status := status, compile_flag := compile_flag }

/-- run_single_test (src/test_runner.py, lines 59-69). -/
def run_single_test (env : Env) (test_file : String) (program_path : String) :
    SingleTestResult :=
  let test_name := stem test_file
  let status := run_command env ("./" ++ test_name) program_path
  { status := status, test_file := test_file }

/-- run_c_tests (src/test_runner.py, lines 72-100): one TestResults per flag
combination; tests run only when the build passed. -/
def run_c_tests (env : Env) (program : ProgramMetadata) : List TestResults :=
  (Preprocessing.get_compile_flag_combinations program.compile_flags).map
    (fun compile_flag =>
      let compile_result := compile_c_program env compile_flag program.path
      let test_results :=
        if compile_result.status.passed then
          program.tests.map (fun test_file => run_single_test env test_file program.path)
        else []
      let test_status := test_results.all (fun test_result => test_result.status.passed)
      let is_tests_passed := compile_result.status.passed && test_status
      { status := { passed := compile_result.status.passed && is_tests_passed },
        compile_result := compile_result,
        test_results := test_results })

/-- run_transpile (src/test_runner.py, lines 103-115): rebuild with all flags,
then invoke the transpiler. -/
def run_transpile (env : Env) (program : ProgramMetadata) (hayroll_path : String) :
    Status :=
  let all_flags := String.intercalate " " program.compile_flags
  let _ := compile_c_program env all_flags program.path
  run_command env (hayroll_path ++ " compile_commands.json hayroll-out") program.path

/-- compile_rust_program (src/test_runner.py, lines 118-131). -/
def compile_rust_program (env : Env) (compile_flag : String) (program_path : String) :
    Status :=
  let features :=
    (((PyStr.splitOnChar ' ' compile_flag).filter (fun f => f != "")).filter
        (fun f => PyStr.pyStartsWith f "-D")).map (fun f => PyStr.pyReplace f "-D" "")
  let cargo_command :=
    if features.isEmpty then "cargo build --release"
    else "cargo build --release --features " ++ String.intercalate "," features
  run_command env cargo_command program_path

/-- The gcc link invocation of link_and_run_rust_test
(src/test_runner.py, lines 142-145). -/
def link_command (test_file : String) : String :=
  "gcc -o rust_" ++ stem test_file ++ " " ++ test_file ++
    " -Isrc -Ltarget/release -lc2rust_out -ldl -lpthread -lm"

/-- link_and_run_rust_test (src/test_runner.py, lines 134-163): a failing link
yields a failed SingleTestResult tagged "Link failed:"; otherwise the linked
binary is executed. -/
def link_and_run_rust_test (env : Env) (test_file : String) (program_path : String) :
    SingleTestResult :=
  let rust_test_name := "rust_" ++ stem test_file
  let link_status := run_command env (link_command test_file) program_path
  if !link_status.passed then
    { status := { passed := false, stdout := link_status.stdout,
                  stderr := "Link failed: " ++ link_status.stderr },
      test_file := test_file }
  else
    { status := run_command env ("./" ++ rust_test_name) program_path,
      test_file := test_file }

/-- run_rust_tests (src/test_runner.py, lines 166-196): structurally identical
to run_c_tests, against the transpiled artifact. -/
def run_rust_tests (env : Env) (program : ProgramMetadata) : List TestResults :=
  (Preprocessing.get_compile_flag_combinations program.compile_flags).map
    (fun compile_flag =>
      let compile_result : CompileResult :=
        { status := compile_rust_program env compile_flag program.path,
          compile_flag := compile_flag }
      let test_results :=
        if compile_result.status.passed then
          program.tests.map
            (fun test_file => link_and_run_rust_test env test_file program.path)
        else []
      let test_status := test_results.all (fun test_result => test_result.status.passed)
      { status := { passed := compile_result.status.passed && test_status },
        compile_result := compile_result,
        test_results := test_results })

/-- Loop body of run_tests (src/test_runner.py, lines 206-226), for one
program (the print of the transpile status is a pure observation and is
omitted). -/
def run_tests_program (env : Env) (hayroll_path : String) (program : ProgramMetadata) :
    ProgramResults :=
  let c_test_results := run_c_tests env program
  let is_c_test_passed := c_test_results.all (fun test_result => test_result.status.passed)
  let transpile_results := run_transpile env program hayroll_path
  let rust_test_results := run_rust_tests env program
  let program_status : Status := { passed := is_c_test_passed && transpile_results.passed }
  { name := program.name,
    status := program_status,
    c_test_results := c_test_results,
    transpile_results := transpile_results,
    rust_test_results := rust_test_results }

/-- run_tests (src/test_runner.py, lines 199-228), with the program list
(obtained by get_test_programs from test_programs.json) and the command
oracle as explicit inputs. -/
def run_tests (env : Env) (test_programs : List ProgramMetadata) (hayroll_path : String) :
    List ProgramResults :=
  test_programs.map (run_tests_program env hayroll_path)

/-- A minimal test program: no optional flags, one test file. -/
def prog0 : ProgramMetadata :=
  { name := "p", path := "work/p", tests := ["t.c"], compile_flags := [] }

/-- A test program with three test files and no optional flags. -/
def prog3 : ProgramMetadata :=
  { name := "p3", path := "work/p3", tests := ["t1.c", "t2.c", "t3.c"], compile_flags := [] }

/-- Programs for the isolation scenario, in distinct working directories. -/
def progA : ProgramMetadata :=
  { name := "a", path := "work/a", tests := ["t.c"], compile_flags := [] }

/-- Second program of the isolation scenario. -/
def progB : ProgramMetadata :=
  { name := "b", path := "work/b", tests := ["t.c"], compile_flags := [] }

/-- Oracle under which every command succeeds. -/
def envAllPass : Env := fun _ _ => .exited 0 "" ""

/-- Oracle that fails exactly the Rust rebuild and lets everything else
succeed. -/
def envRustFails : Env := fun command _ =>
  if command = "cargo build --release" then .exited 1 "" "cargo boom"
  else .exited 0 "" ""

/-- Oracle that fails exactly the transpile invocation. -/
def envTranspileFails : Env := fun command _ =>
  if command = "hayroll compile_commands.json hayroll-out" then .exited 1 "" "transpile boom"
  else .exited 0 "" ""

/-- Oracle that fails exactly the C build of prog0. -/
def envBuildFails : Env := fun command _ =>
  if command = "bear -- make DEFINES=\"\"" then .exited 1 "" "cc boom"
  else .exited 0 "" ""

/-- Oracle that fails exactly the link step of the second of three test
files. -/
def envLinkT2Fails : Env := fun command _ =>
  if command = link_command "t2.c" then .exited 1 "" "link boom"
  else .exited 0 "" ""

/-- Oracle that forces every command in the working directory of progA to
fail and lets every other directory succeed. -/
def envFailA : Env := fun _ path =>
  if path = "work/a" then .exited 1 "" "forced" else .exited 0 "" ""

/-- Oracle under which every command times out. -/
def envTimeout : Env := fun _ _ => .timeoutExpired

/-- Oracle under which every command fails to start. -/
def envRaise : Env := fun _ _ => .raised "No such file or directory"

/-- Oracle under which every command exits with code 1. -/
def envExit1 : Env := fun _ _ => .exited 1 "out" "err"

end TestRunner

namespace Bench

/-- Oracle for the run helper of benchmark.py (lines 7-15): success flag,
stdout, stderr. The try/except there maps any raised exception to
(False, "", message), so the observable behaviour is exactly this triple. -/
def EnvB : Type := String → String → Bool × String × String

/-- The shapes a per-test entry of test_results takes in benchmark.py. -/
inductive BenchTestStatus where
  | passed
  | failed (stdout stderr : String)
  | link_failed (error : String)
deriving DecidableEq

/-- The per-program result dictionary of benchmark.py: status, failed_stage,
stage-level error, and the per-test entries in insertion order. -/
structure BenchProgramResult where
  status : String
  failed_stage : Option String
  error : Option String := none
  test_results : List (String × BenchTestStatus) := []
deriving DecidableEq

/-- exe_name as computed in the test loop of benchmark.py (line 68). -/
def exe_name (test_file : String) : String := TestRunner.stem test_file ++ "_exe"

/-- The gcc link invocation of benchmark.py (line 69). -/
def bench_link_command (test_file : String) : String :=
  "gcc -o " ++ exe_name test_file ++ " " ++ test_file ++
    " -Isrc -Ltarget/release -lc2rust_out -ldl -lpthread -lm"

/-- Body of the per-test loop of benchmark.py (lines 67-91), threading the
mutated program result. A link failure records a link_failed entry and sets
failed_stage to "link" but continues with the next file; an execution failure
records a failed entry and sets failed_stage to "test". -/
def bench_test_step (env : EnvB) (path : String) (pr : BenchProgramResult)
    (test_file : String) : BenchProgramResult :=
  let link := env (bench_link_command test_file) path
  if !link.1 then
    { pr with
        test_results := pr.test_results ++ [(test_file, .link_failed link.2.2)],
        status := "failed",
        failed_stage := some "link" }
  else
    let texe := env ("./" ++ exe_name test_file) path
    if texe.1 then
      { pr with test_results := pr.test_results ++ [(test_file, .passed)] }
    else
      { pr with
          test_results := pr.test_results ++ [(test_file, .failed texe.2.1 texe.2.2)],
          status := "failed",
          failed_stage := some "test" }

/-- Per-program body of the main loop of benchmark.py (lines 25-93): the
three stage-level commands short-circuit, then the test loop runs to the
end. -/
def bench_run_program (env : EnvB) (path : String) (tests : List String) :
    BenchProgramResult :=
  let pr : BenchProgramResult := { status := "passed", failed_stage := none }
  let make := env "bear -- make" path
  if !make.1 then
    { pr with status := "failed", failed_stage := some "make", error := some make.2.2 }
  else
    let transpile := env "c2rust transpile --emit-build-files compile_commands.json" path
    if !transpile.1 then
      { pr with
          status := "failed", failed_stage := some "transpile",
          error := some transpile.2.2 }
    else
      let cargo := env "cargo build --release" path
      if !cargo.1 then
        { pr with
            status := "failed", failed_stage := some "rust_build",
            error := some cargo.2.2 }
      else
        tests.foldl (bench_test_step env path) pr

/-- The failure stage a single test file contributes in the benchmark test
loop, if any. -/
def testFailStage (env : EnvB) (path : String) (test_file : String) : Option String :=
  if !(env (bench_link_command test_file) path).1 then some "link"
  else if !(env ("./" ++ exe_name test_file) path).1 then some "test"
  else none

/-- The last value f produces over the list, if any. -/
def lastSome {α β : Type} (f : α → Option β) : List α → Option β
  | [] => none
  | x :: xs =>
      match lastSome f xs with
      | some b => some b
      | none => f x

/-- Oracle for the benchmark scenario: the three stage commands succeed, the
link of t1.c fails, and the execution of the binary of t2.c fails. -/
def envBenchMixed : EnvB := fun command _ =>
  if command = bench_link_command "t1.c" then (false, "", "link boom")
  else if command = "./" ++ exe_name "t2.c" then (false, "out", "exec boom")
  else (true, "", "")

end Bench

namespace Scripts

/-- One entry of overall_results as consumed by the summary block of
run_tests (scripts/run_tests.py, lines 187-207): only the status and
stage_failed fields matter to the summary. -/
structure ScriptResult where
  status : String
  stage_failed : String
deriving DecidableEq

/-- str(stage) for the five members of the Stage enumeration
(scripts/run_tests.py, lines 26-44). -/
def stage_names : List String :=
  ["c_build", "transpile", "rust_build", "rust_link", "rust_test"]

/-- The summary dictionary (scripts/run_tests.py, lines 199-204); failed_at is
a Python dict with string keys, modelled as a total function with the
default-0 semantics of failed_at.get(stage, 0). -/
structure Summary where
  total_programs : Nat
  programs_passed : Nat
  programs_failed : Nat
  failed_at : String → Nat

/-- The summary statistics block (scripts/run_tests.py, lines 188-204):
single pass, pure in the oracle-free sense. -/
def summarize (overall_results : List ScriptResult) : Summary :=
  let total_programs := overall_results.length
  let programs_passed := (overall_results.filter (fun r => r.status == "passed")).length
  let programs_failed := total_programs - programs_passed
  let failed_at :=
    overall_results.foldl
      (fun m r =>
        if r.status == "failed" then
          fun s => if s == r.stage_failed then m s + 1 else m s
        else m)
      (fun _ => 0)
  { total_programs := total_programs, programs_passed := programs_passed,
    programs_failed := programs_failed, failed_at := failed_at }

/-- A sample result list for the summary scenario. -/
def sampleResults : List ScriptResult :=
  [⟨"passed", ""⟩, ⟨"failed", "transpile"⟩, ⟨"failed", "rust_link"⟩,
   ⟨"failed", "transpile"⟩]

end Scripts

namespace Preprocessing

theorem recursive_update_eq_map (compile_flags : List String) :
    ∀ cur, recursive_update compile_flags cur
      = compile_flags.sublists'.map (fun s => cur ++ s) := by
  induction compile_flags with
  | nil => intro cur; simp [recursive_update]
  | cons f rest ih =>
      intro cur
      simp only [recursive_update, ih, List.sublists'_cons, List.map_append, List.map_map]
      congr 1
      apply List.map_congr_left
      intro s _
      simp

theorem length_recursive_update (compile_flags : List String) :
    ∀ cur, (recursive_update compile_flags cur).length = 2 ^ compile_flags.length := by
  induction compile_flags with
  | nil => intro cur; rfl
  | cons f rest ih =>
      intro cur
      simp only [recursive_update, List.length_append, ih, List.length_cons]
      rw [pow_succ, Nat.mul_two]

theorem head?_recursive_update (compile_flags : List String) :
    ∀ cur, (recursive_update compile_flags cur).head? = some cur := by
  induction compile_flags with
  | nil => intro cur; rfl
  | cons f rest ih =>
      intro cur
      have h := ih cur
      cases hr : recursive_update rest cur with
      | nil => rw [hr] at h; simp at h
      | cons x t =>
          rw [hr] at h
          simp only [List.head?] at h
          simp [recursive_update, hr, h]

theorem nodup_recursive_update {compile_flags : List String} (h : compile_flags.Nodup)
    (cur : List String) : (recursive_update compile_flags cur).Nodup := by
  rw [recursive_update_eq_map]
  exact (List.nodup_sublists'.2 h).map fun _ _ => List.append_cancel_left

end Preprocessing

namespace PyHeap

theorem Heap.read_append {h : Heap} {r : Nat} (ext : List (List String))
    (hr : r < h.cells.length) : Heap.read ⟨h.cells ++ ext⟩ r = h.read r := by
  simp [Heap.read, List.getD, List.getElem?_append_left hr]

/-- The heap only grows during recursive_update, existing objects keep their
values, every collected reference is allocated, and the values finally read
through the collected references are exactly the pure subset enumeration. -/
theorem recursive_update_spec (rest : List String) :
    ∀ curRef acc h, curRef < h.cells.length → (∀ r ∈ acc, r < h.cells.length) →
      (∃ ext, (recursive_update rest curRef acc h).2.cells = h.cells ++ ext) ∧
      (∀ r ∈ (recursive_update rest curRef acc h).1,
         r < (recursive_update rest curRef acc h).2.cells.length) ∧
      (recursive_update rest curRef acc h).1.map (recursive_update rest curRef acc h).2.read
        = acc.map h.read ++ Preprocessing.recursive_update rest (h.read curRef) := by
  induction rest with
  | nil =>
      intro curRef acc h hcur hacc
      refine ⟨⟨[], by simp [recursive_update]⟩, ?_,
        by simp [recursive_update, Preprocessing.recursive_update]⟩
      intro r hr
      simp only [recursive_update, List.mem_append, List.mem_singleton] at hr
      rcases hr with hr | hr
      · exact hacc r hr
      · exact hr ▸ hcur
  | cons flag tail ih =>
      intro curRef acc h hcur hacc
      obtain ⟨⟨ext₁, hext₁⟩, hmem₁, hmap₁⟩ := ih curRef acc h hcur hacc
      set p₁ := recursive_update tail curRef acc h with hp₁
      have hlen₁ : h.cells.length ≤ p₁.2.cells.length := by
        rw [hext₁]; simp
      set h₂ : Heap := ⟨p₁.2.cells ++ [p₁.2.read curRef ++ [flag]]⟩ with hh₂
      have hcur₂ : curRef < h₂.cells.length := by
        simp only [hh₂, List.length_append]
        omega
      have hnew : p₁.2.cells.length < h₂.cells.length := by
        simp [hh₂]
      have hacc₂ : ∀ r ∈ p₁.1, r < h₂.cells.length := by
        intro r hr
        have := hmem₁ r hr
        simp only [hh₂, List.length_append]
        omega
      obtain ⟨⟨ext₂, hext₂⟩, hmem₂, hmap₂⟩ := ih p₁.2.cells.length p₁.1 h₂ hnew hacc₂
      have hrun : recursive_update (flag :: tail) curRef acc h
          = recursive_update tail p₁.2.cells.length p₁.1 h₂ := by
        simp only [recursive_update, Heap.alloc]
      rw [hrun]
      set p₂ := recursive_update tail p₁.2.cells.length p₁.1 h₂ with hp₂
      have hreadcur₁ : p₁.2.read curRef = h.read curRef := by
        have : p₁.2 = Heap.mk (h.cells ++ ext₁) := by
          cases hp : p₁.2 with
          | mk cs => simp only [hp] at hext₁; rw [hext₁]
        rw [this]
        exact Heap.read_append ext₁ hcur
      refine ⟨⟨ext₁ ++ [p₁.2.read curRef ++ [flag]] ++ ext₂, ?_⟩, hmem₂, ?_⟩
      · rw [hext₂]
        simp only [hh₂, hext₁]
        simp [List.append_assoc]
      · have hreadnew : h₂.read p₁.2.cells.length = p₁.2.read curRef ++ [flag] := by
          simp [hh₂, Heap.read, List.getD, List.getElem?_append_right]
        have hold : p₁.1.map h₂.read = p₁.1.map p₁.2.read := by
          apply List.map_congr_left
          intro r hr
          have hrl := hmem₁ r hr
          have : h₂.read r = p₁.2.read r := by
            cases hp : p₁.2 with
            | mk cs =>
                simp only [hh₂, hp]
                exact Heap.read_append (h := Heap.mk cs) _ (by rw [← hp]; exact hrl)
          rw [this]
        rw [hmap₂, hold, hmap₁, hreadnew, hreadcur₁]
        simp [Preprocessing.recursive_update, List.append_assoc]

end PyHeap

namespace PyHeap

theorem Heap.read_ext {h h₁ : Heap} {r : Nat} (ext : List (List String))
    (hc : h₁.cells = h.cells ++ ext) (hr : r < h.cells.length) : h₁.read r = h.read r := by
  simp [Heap.read, hc, List.getD, List.getElem?_append_left hr]

/-- A call of the stateful combinator from any heap computes the pure
enumeration seeded with the current value of the default object, and only
extends the heap. -/
theorem gcfc_heap_spec (compile_flags : List String) (defaultRef : Nat) (h : Heap)
    (href : defaultRef < h.cells.length) :
    (get_compile_flag_combinations compile_flags defaultRef h).1
        = (Preprocessing.recursive_update compile_flags (h.read defaultRef)).map
            (fun c => String.intercalate " " c) ∧
    (∃ ext, (get_compile_flag_combinations compile_flags defaultRef h).2.cells
        = h.cells ++ ext) := by
  obtain ⟨⟨ext, hext⟩, hmem, hmap⟩ :=
    recursive_update_spec compile_flags defaultRef [] h href (by simp)
  refine ⟨?_, ⟨ext, hext⟩⟩
  show (recursive_update compile_flags defaultRef [] h).1.map _ = _
  have hcomp : (recursive_update compile_flags defaultRef [] h).1.map
      (fun ref => String.intercalate " "
        ((recursive_update compile_flags defaultRef [] h).2.read ref))
      = ((recursive_update compile_flags defaultRef [] h).1.map
          (recursive_update compile_flags defaultRef [] h).2.read).map
          (fun c => String.intercalate " " c) := by
    rw [List.map_map]; rfl
  rw [hcomp, hmap]
  simp

end PyHeap

/-- C4 (amended): for every list of n pairwise distinct flags the combinator
returns exactly 2 ^ n combinations, the empty combination is emitted first,
and the underlying flag subsets are pairwise distinct; the returned strings
themselves are pairwise distinct whenever space-joining is injective on those
subsets (which can fail when a flag contains a space); for n = 0 the result is
exactly the single empty combination. -/
theorem C4_flag_combinator (compile_flags : List String) (hnd : compile_flags.Nodup) :
    (Preprocessing.get_compile_flag_combinations compile_flags).length
        = 2 ^ compile_flags.length ∧
    (Preprocessing.get_compile_flag_combinations compile_flags).head? = some "" ∧
    (Preprocessing.recursive_update compile_flags []).Nodup ∧
    ((∀ s₁ ∈ Preprocessing.recursive_update compile_flags [],
        ∀ s₂ ∈ Preprocessing.recursive_update compile_flags [],
          String.intercalate " " s₁ = String.intercalate " " s₂ → s₁ = s₂) →
      (Preprocessing.get_compile_flag_combinations compile_flags).Nodup) ∧
    (compile_flags = [] →
      Preprocessing.get_compile_flag_combinations compile_flags = [""]) := by
  refine ⟨?_, ?_, ?_, ?_, ?_⟩
  · simp [Preprocessing.get_compile_flag_combinations,
      Preprocessing.length_recursive_update]
  · simp only [Preprocessing.get_compile_flag_combinations, List.head?_map,
      Preprocessing.head?_recursive_update, Option.map_some]
    rfl
  · exact Preprocessing.nodup_recursive_update hnd []
  · intro hinj
    exact (Preprocessing.nodup_recursive_update hnd []).map_on hinj
  · intro h
    subst h
    rfl

/-- C4 witness: two distinct space-free flags give four pairwise distinct
combinations. -/
theorem C4_flag_combinator_witness :
    (Preprocessing.get_compile_flag_combinations ["-DFOO", "-DBAR"]).length = 2 ^ 2 ∧
    (Preprocessing.get_compile_flag_combinations ["-DFOO", "-DBAR"]).Nodup :=
  ⟨(C4_flag_combinator ["-DFOO", "-DBAR"] (by decide)).1,
   (C4_flag_combinator ["-DFOO", "-DBAR"] (by decide)).2.2.2.1 (by decide)⟩

/-- C4 counterexample: three pairwise distinct flags, one containing a space;
two distinct subsets join to the same string, so the returned combination
strings contain a duplicate. -/
theorem C4_counterexample :
    (["a b", "a", "b"] : List String).Nodup ∧
    ¬ (Preprocessing.get_compile_flag_combinations ["a b", "a", "b"]).Nodup := by
  decide

/-- C10: the combinator never mutates the default-argument object in place:
from any heap in which that object holds the empty list, a call returns
exactly the pure combination list, leaves the object holding the empty list,
and a second call in the post-call heap returns the same result — no state
leaks between calls. -/
theorem C10_no_default_argument_leak (compile_flags : List String) (defaultRef : Nat)
    (h : PyHeap.Heap) (href : defaultRef < h.cells.length)
    (hval : h.read defaultRef = []) :
    (PyHeap.get_compile_flag_combinations compile_flags defaultRef h).1
        = Preprocessing.get_compile_flag_combinations compile_flags ∧
    (PyHeap.get_compile_flag_combinations compile_flags defaultRef h).2.read defaultRef
        = [] ∧
    (PyHeap.get_compile_flag_combinations compile_flags defaultRef
        (PyHeap.get_compile_flag_combinations compile_flags defaultRef h).2).1
      = (PyHeap.get_compile_flag_combinations compile_flags defaultRef h).1 := by
  obtain ⟨h₁, ext, hext⟩ := PyHeap.gcfc_heap_spec compile_flags defaultRef h href
  have hread : (PyHeap.get_compile_flag_combinations compile_flags defaultRef h).2.read
      defaultRef = [] := by
    rw [PyHeap.Heap.read_ext ext hext href, hval]
  have hfirst : (PyHeap.get_compile_flag_combinations compile_flags defaultRef h).1
      = Preprocessing.get_compile_flag_combinations compile_flags := by
    rw [h₁, hval]; rfl
  refine ⟨hfirst, hread, ?_⟩
  have href₂ : defaultRef
      < (PyHeap.get_compile_flag_combinations compile_flags defaultRef h).2.cells.length := by
    rw [hext, List.length_append]
    omega
  obtain ⟨h₂, _⟩ := PyHeap.gcfc_heap_spec compile_flags defaultRef
    (PyHeap.get_compile_flag_combinations compile_flags defaultRef h).2 href₂
  rw [h₂, hread, hfirst]
  rfl

/-- C10 witness: the concrete heap holding just the default object. -/
theorem C10_no_default_argument_leak_witness :
    (PyHeap.get_compile_flag_combinations ["-DA"] 0 ⟨[[]]⟩).1
        = Preprocessing.get_compile_flag_combinations ["-DA"] ∧
    (PyHeap.get_compile_flag_combinations ["-DA"] 0 ⟨[[]]⟩).2.read 0 = [] :=
  ⟨(C10_no_default_argument_leak ["-DA"] 0 ⟨[[]]⟩ (by decide) rfl).1,
   (C10_no_default_argument_leak ["-DA"] 0 ⟨[[]]⟩ (by decide) rfl).2.1⟩

namespace TestRunner

theorem run_command_agree {env₁ env₂ : Env} {program_path : String}
    (hagree : ∀ command, env₁ command program_path = env₂ command program_path)
    (command : String) :
    run_command env₁ command program_path = run_command env₂ command program_path := by
  unfold run_command
  rw [hagree]

theorem compile_c_program_agree {env₁ env₂ : Env} {program_path : String}
    (hagree : ∀ command, env₁ command program_path = env₂ command program_path)
    (compile_flag : String) :
    compile_c_program env₁ compile_flag program_path
      = compile_c_program env₂ compile_flag program_path := by
  unfold compile_c_program
  simp only [run_command_agree hagree]

theorem run_single_test_agree {env₁ env₂ : Env} {program_path : String}
    (hagree : ∀ command, env₁ command program_path = env₂ command program_path)
    (test_file : String) :
    run_single_test env₁ test_file program_path
      = run_single_test env₂ test_file program_path := by
  unfold run_single_test
  simp only [run_command_agree hagree]

theorem run_c_tests_agree {env₁ env₂ : Env} {program : ProgramMetadata}
    (hagree : ∀ command, env₁ command program.path = env₂ command program.path) :
    run_c_tests env₁ program = run_c_tests env₂ program := by
  unfold run_c_tests
  apply List.map_congr_left
  intro compile_flag _
  simp only [compile_c_program_agree hagree, run_single_test_agree hagree]

theorem run_transpile_agree {env₁ env₂ : Env} {program : ProgramMetadata}
    (hagree : ∀ command, env₁ command program.path = env₂ command program.path)
    (hayroll_path : String) :
    run_transpile env₁ program hayroll_path = run_transpile env₂ program hayroll_path := by
  unfold run_transpile
  simp only [compile_c_program_agree hagree, run_command_agree hagree]

theorem compile_rust_program_agree {env₁ env₂ : Env} {program_path : String}
    (hagree : ∀ command, env₁ command program_path = env₂ command program_path)
    (compile_flag : String) :
    compile_rust_program env₁ compile_flag program_path
      = compile_rust_program env₂ compile_flag program_path := by
  unfold compile_rust_program
  simp only [run_command_agree hagree]

theorem link_and_run_rust_test_agree {env₁ env₂ : Env} {program_path : String}
    (hagree : ∀ command, env₁ command program_path = env₂ command program_path)
    (test_file : String) :
    link_and_run_rust_test env₁ test_file program_path
      = link_and_run_rust_test env₂ test_file program_path := by
  unfold link_and_run_rust_test
  simp only [run_command_agree hagree]

theorem run_rust_tests_agree {env₁ env₂ : Env} {program : ProgramMetadata}
    (hagree : ∀ command, env₁ command program.path = env₂ command program.path) :
    run_rust_tests env₁ program = run_rust_tests env₂ program := by
  unfold run_rust_tests
  apply List.map_congr_left
  intro compile_flag _
  simp only [compile_rust_program_agree hagree, link_and_run_rust_test_agree hagree]

theorem run_tests_program_agree {env₁ env₂ : Env} {program : ProgramMetadata}
    (hagree : ∀ command, env₁ command program.path = env₂ command program.path)
    (hayroll_path : String) :
    run_tests_program env₁ hayroll_path program
      = run_tests_program env₂ hayroll_path program := by
  unfold run_tests_program
  simp only [run_c_tests_agree hagree, run_transpile_agree hagree,
    run_rust_tests_agree hagree]

end TestRunner

/-- C5: run_command is a total function of the observed process behaviour —
no exception propagates — and it returns a failed Status when the exit code
is non-zero, when the timeout elapses, and when the command cannot be started
(any raised exception). -/
theorem C5_run_command_never_raises (env : TestRunner.Env)
    (command program_path : String) :
    (∀ returncode stdout stderr,
        env command program_path = .exited returncode stdout stderr → returncode ≠ 0 →
          (TestRunner.run_command env command program_path).passed = false) ∧
    (env command program_path = .timeoutExpired →
        TestRunner.run_command env command program_path
          = { passed := false, stdout := "", stderr := "Command timed out" }) ∧
    (∀ msg, env command program_path = .raised msg →
        TestRunner.run_command env command program_path
          = { passed := false, stdout := "", stderr := "Command failed: " ++ msg }) := by
  refine ⟨?_, ?_, ?_⟩
  · intro returncode stdout stderr hexec hne
    simp [TestRunner.run_command, hexec, hne]
  · intro hexec
    simp [TestRunner.run_command, hexec]
  · intro msg hexec
    simp [TestRunner.run_command, hexec]

/-- C5 witness: the three failure behaviours at a concrete command. -/
theorem C5_run_command_never_raises_witness :
    (TestRunner.run_command TestRunner.envExit1 "make clean" "work/p").passed = false ∧
    TestRunner.run_command TestRunner.envTimeout "make clean" "work/p"
      = { passed := false, stdout := "", stderr := "Command timed out" } ∧
    TestRunner.run_command TestRunner.envRaise "make clean" "work/p"
      = { passed := false, stdout := "",
          stderr := "Command failed: No such file or directory" } :=
  ⟨(C5_run_command_never_raises TestRunner.envExit1 "make clean" "work/p").1
      1 "out" "err" rfl (by decide),
   (C5_run_command_never_raises TestRunner.envTimeout "make clean" "work/p").2.1 rfl,
   (C5_run_command_never_raises TestRunner.envRaise "make clean" "work/p").2.2
      "No such file or directory" rfl⟩

/-- C9: in both per-flag-combination loops, a failed build leaves the list of
recorded test outcomes empty. -/
theorem C9_failed_build_empty_tests (env : TestRunner.Env)
    (program : TestRunner.ProgramMetadata) :
    (∀ tr ∈ TestRunner.run_c_tests env program,
        tr.compile_result.status.passed = false → tr.test_results = []) ∧
    (∀ tr ∈ TestRunner.run_rust_tests env program,
        tr.compile_result.status.passed = false → tr.test_results = []) := by
  constructor
  · intro tr htr hfail
    simp only [TestRunner.run_c_tests, List.mem_map] at htr
    obtain ⟨compile_flag, -, rfl⟩ := htr
    simp only at hfail ⊢
    simp [hfail]
  · intro tr htr hfail
    simp only [TestRunner.run_rust_tests, List.mem_map] at htr
    obtain ⟨compile_flag, -, rfl⟩ := htr
    simp only at hfail ⊢
    simp [hfail]

/-- C9 witness: a failing C build records a combination result with an empty
test list. -/
theorem C9_failed_build_empty_tests_witness :
    ∃ tr, tr ∈ TestRunner.run_c_tests TestRunner.envBuildFails TestRunner.prog0 ∧
      tr.test_results = [] :=
  ⟨(TestRunner.run_c_tests TestRunner.envBuildFails TestRunner.prog0).headI, by decide,
   (C9_failed_build_empty_tests TestRunner.envBuildFails TestRunner.prog0).1
      (TestRunner.run_c_tests TestRunner.envBuildFails TestRunner.prog0).headI
      (by decide) (by decide)⟩

/-- C1: evaluation at the failing input: under envRustFails the single
program has every C-side result passed and the transpile passed, its only
Rust-side result failed, and yet the recorded overall status is passed — the
overall outcome ignores the Rust-side results, contradicting the claimed
equivalence. -/
theorem C1_overall_ignores_rust_results :
    ((TestRunner.run_tests TestRunner.envRustFails [TestRunner.prog0] "hayroll").map
        (fun r =>
          (r.status.passed,
           r.c_test_results.all (fun tr => tr.status.passed),
           r.transpile_results.passed,
           r.rust_test_results.all (fun tr => tr.status.passed))))
      = [(true, true, true, false)] := by decide

/-- C2: evaluation at the failing input: the transpile fails yet
run_rust_tests still executes, so rust_test_results is non-empty (one entry
for the single flag combination) instead of the skip described by the spec
and by the models.py documentation. -/
theorem C2_rust_stage_not_skipped :
    ((TestRunner.run_tests TestRunner.envTranspileFails [TestRunner.prog0] "hayroll").map
        (fun r => (r.transpile_results.passed, r.rust_test_results.length)))
      = [(false, 1)] := by decide

/-- C3 counterexample: the Rust-side build passes and the link of the second
of three test files fails; all three files are attempted and three outcomes
are recorded — not one — with the first and third recorded as passes. -/
theorem C3_counterexample :
    ((TestRunner.run_rust_tests TestRunner.envLinkT2Fails TestRunner.prog3).map
        (fun e => e.test_results.map (fun t => (t.test_file, t.status.passed))))
      = [[("t1.c", true), ("t2.c", false), ("t3.c", true)]] ∧
    ¬ ((TestRunner.run_rust_tests TestRunner.envLinkT2Fails TestRunner.prog3).map
        (fun e => e.test_results.length) = [1]) := by decide

/-- C3 (amended): in a combination whose build passed, one outcome is
recorded for every test file in listed order; a link failure yields a failed
outcome for its own file but does not block the remaining files. -/
theorem C3_link_failure_not_blocking (env : TestRunner.Env)
    (program : TestRunner.ProgramMetadata) :
    ∀ e ∈ TestRunner.run_rust_tests env program,
      e.compile_result.status.passed = true →
        e.test_results = program.tests.map
            (fun test_file => TestRunner.link_and_run_rust_test env test_file program.path) ∧
        ∀ test_file,
          (TestRunner.run_command env (TestRunner.link_command test_file)
              program.path).passed = false →
            (TestRunner.link_and_run_rust_test env test_file program.path).status.passed
              = false := by
  intro e he hpass
  constructor
  · simp only [TestRunner.run_rust_tests, List.mem_map] at he
    obtain ⟨compile_flag, -, rfl⟩ := he
    simp only at hpass ⊢
    simp [hpass]
  · intro test_file hlink
    simp [TestRunner.link_and_run_rust_test, hlink]

/-- C3 witness: the scenario of the counterexample oracle satisfies the
amended description. -/
theorem C3_link_failure_not_blocking_witness :
    ∃ e, e ∈ TestRunner.run_rust_tests TestRunner.envLinkT2Fails TestRunner.prog3 ∧
      e.test_results = TestRunner.prog3.tests.map
        (fun test_file => TestRunner.link_and_run_rust_test TestRunner.envLinkT2Fails
          test_file TestRunner.prog3.path) :=
  ⟨(TestRunner.run_rust_tests TestRunner.envLinkT2Fails TestRunner.prog3).headI,
   by decide,
   ((C3_link_failure_not_blocking TestRunner.envLinkT2Fails TestRunner.prog3)
      (TestRunner.run_rust_tests TestRunner.envLinkT2Fails TestRunner.prog3).headI
      (by decide) (by decide)).1⟩

/-- C7: program isolation in run_tests: the result recorded for the i-th
program depends only on that program and on the behaviour of commands in its
own working directory; two oracles that agree there — however much they
differ for other programs, e.g. forcing every stage of another program to
fail — produce the same result for it. -/
theorem C7_program_isolation (env₁ env₂ : TestRunner.Env) (hayroll_path : String)
    (test_programs : List TestRunner.ProgramMetadata) (i : Nat)
    (hi : i < test_programs.length)
    (hagree : ∀ command,
        env₁ command (test_programs.get ⟨i, hi⟩).path
          = env₂ command (test_programs.get ⟨i, hi⟩).path)
    (h₁ : i < (TestRunner.run_tests env₁ test_programs hayroll_path).length)
    (h₂ : i < (TestRunner.run_tests env₂ test_programs hayroll_path).length) :
    (TestRunner.run_tests env₁ test_programs hayroll_path).get ⟨i, h₁⟩
      = (TestRunner.run_tests env₂ test_programs hayroll_path).get ⟨i, h₂⟩ := by
  simp only [TestRunner.run_tests, List.get_eq_getElem, List.getElem_map]
  exact TestRunner.run_tests_program_agree (by simpa using hagree) hayroll_path

/-- C7 witness: forcing every command of progA to fail changes the overall
result list but leaves the entry of progB unchanged. -/
theorem C7_program_isolation_witness :
    (TestRunner.run_tests TestRunner.envAllPass [TestRunner.progA, TestRunner.progB]
        "hayroll").get ⟨1, by decide⟩
      = (TestRunner.run_tests TestRunner.envFailA [TestRunner.progA, TestRunner.progB]
          "hayroll").get ⟨1, by decide⟩ ∧
    ¬ ((TestRunner.run_tests TestRunner.envAllPass [TestRunner.progA, TestRunner.progB]
          "hayroll").map (fun r => r.status.passed)
        = (TestRunner.run_tests TestRunner.envFailA [TestRunner.progA, TestRunner.progB]
            "hayroll").map (fun r => r.status.passed)) :=
  ⟨C7_program_isolation TestRunner.envAllPass TestRunner.envFailA "hayroll"
      [TestRunner.progA, TestRunner.progB] 1 (by decide) (fun _ => rfl)
      (by decide) (by decide),
   by decide⟩

namespace Bench

theorem foldl_bench_test_step_error (env : EnvB) (path : String) :
    ∀ (tests : List String) (pr : BenchProgramResult),
      (tests.foldl (bench_test_step env path) pr).error = pr.error := by
  intro tests
  induction tests with
  | nil => intro pr; rfl
  | cons t ts ih =>
      intro pr
      rw [List.foldl_cons, ih]
      unfold bench_test_step
      by_cases hl : (env (bench_link_command t) path).1 <;>
        by_cases he : (env ("./" ++ exe_name t) path).1 <;> simp [hl, he]

theorem bench_test_step_failed_stage (env : EnvB) (path : String)
    (pr : BenchProgramResult) (t : String) :
    (bench_test_step env path pr t).failed_stage
      = match testFailStage env path t with
        | some s => some s
        | none => pr.failed_stage := by
  unfold bench_test_step testFailStage
  by_cases hl : (env (bench_link_command t) path).1 <;>
    by_cases he : (env ("./" ++ exe_name t) path).1 <;> simp [hl, he]

/-- After the test loop, failed_stage carries the stage of the last failing
test file, or the incoming value when every file passes. -/
theorem foldl_bench_test_step_failed_stage (env : EnvB) (path : String) :
    ∀ (tests : List String) (pr : BenchProgramResult),
      (tests.foldl (bench_test_step env path) pr).failed_stage
        = match lastSome (testFailStage env path) tests with
          | some s => some s
          | none => pr.failed_stage := by
  intro tests
  induction tests with
  | nil => intro pr; rfl
  | cons t ts ih =>
      intro pr
      rw [List.foldl_cons, ih]
      cases hls : lastSome (testFailStage env path) ts with
      | some s => simp [lastSome, hls]
      | none => simp [lastSome, hls, bench_test_step_failed_stage]

end Bench

/-- C6 (amended): failed_stage is first-failure-wins across the stage-level
pipeline — a Build failure is recorded as "make" and stops the program, then
Transpile, then RustBuild — but within the Link/Execute test loop it records
the stage of the most recent failing test file, so a later file's Execute
failure overwrites an earlier file's Link failure; the stage-level error text
is written only at the terminal stage and is never overwritten afterwards. -/
theorem C6_failed_stage_reporting (env : Bench.EnvB) (path : String)
    (tests : List String) :
    ((env "bear -- make" path).1 = false →
      Bench.bench_run_program env path tests
        = { status := "failed", failed_stage := some "make",
            error := some (env "bear -- make" path).2.2, test_results := [] }) ∧
    ((env "bear -- make" path).1 = true →
      (env "c2rust transpile --emit-build-files compile_commands.json" path).1 = false →
      Bench.bench_run_program env path tests
        = { status := "failed", failed_stage := some "transpile",
            error := some
              (env "c2rust transpile --emit-build-files compile_commands.json" path).2.2,
            test_results := [] }) ∧
    ((env "bear -- make" path).1 = true →
      (env "c2rust transpile --emit-build-files compile_commands.json" path).1 = true →
      (env "cargo build --release" path).1 = false →
      Bench.bench_run_program env path tests
        = { status := "failed", failed_stage := some "rust_build",
            error := some (env "cargo build --release" path).2.2,
            test_results := [] }) ∧
    ((env "bear -- make" path).1 = true →
      (env "c2rust transpile --emit-build-files compile_commands.json" path).1 = true →
      (env "cargo build --release" path).1 = true →
      (Bench.bench_run_program env path tests).failed_stage
          = Bench.lastSome (Bench.testFailStage env path) tests ∧
      (Bench.bench_run_program env path tests).error = none) := by
  refine ⟨?_, ?_, ?_, ?_⟩
  · intro h1
    simp [Bench.bench_run_program, h1]
  · intro h1 h2
    simp [Bench.bench_run_program, h1, h2]
  · intro h1 h2 h3
    simp [Bench.bench_run_program, h1, h2, h3]
  · intro h1 h2 h3
    have hrun : Bench.bench_run_program env path tests
        = tests.foldl (Bench.bench_test_step env path)
            { status := "passed", failed_stage := none } := by
      simp [Bench.bench_run_program, h1, h2, h3]
    rw [hrun, Bench.foldl_bench_test_step_failed_stage,
      Bench.foldl_bench_test_step_error]
    cases Bench.lastSome (Bench.testFailStage env path) tests <;> simp

/-- C6 counterexample: under envBenchMixed the link of t1.c fails (a Link
failure, earlier in pipeline order) and then the execution of t2.c fails;
the recorded failed_stage is "test" — the later Execute failure overwrote
the earlier Link failure. -/
theorem C6_counterexample :
    (Bench.bench_run_program Bench.envBenchMixed "p" ["t1.c", "t2.c"]).failed_stage
        = some "test" ∧
    Bench.testFailStage Bench.envBenchMixed "p" "t1.c" = some "link" ∧
    (Bench.bench_run_program Bench.envBenchMixed "p" ["t1.c", "t2.c"]).test_results
        = [("t1.c", .link_failed "link boom"), ("t2.c", .failed "out" "exec boom")] := by
  decide

/-- C6 witness: the amended reporting rule instantiated at the mixed
scenario. -/
theorem C6_failed_stage_reporting_witness :
    (Bench.bench_run_program Bench.envBenchMixed "p" ["t1.c", "t2.c"]).failed_stage
      = Bench.lastSome (Bench.testFailStage Bench.envBenchMixed "p") ["t1.c", "t2.c"] :=
  ((C6_failed_stage_reporting Bench.envBenchMixed "p" ["t1.c", "t2.c"]).2.2.2
    (by decide) (by decide) (by decide)).1

namespace Scripts

/-- Pointwise characterization of the failed_at fold: each stage string is
mapped to the number of failed results recorded for it. -/
theorem failed_at_count (overall_results : List ScriptResult) :
    ∀ (m : String → Nat) (s : String),
      (overall_results.foldl
          (fun m r =>
            if r.status == "failed" then
              fun s => if s == r.stage_failed then m s + 1 else m s
            else m) m) s
        = m s + (overall_results.filter
            (fun r => r.status == "failed" && r.stage_failed == s)).length := by
  induction overall_results with
  | nil => intro m s; simp
  | cons r rs ih =>
      intro m s
      rw [List.foldl_cons, ih]
      by_cases hf : r.status = "failed"
      · by_cases hs : s = r.stage_failed
        · simp [List.filter_cons, hf, hs]
          omega
        · have hs2 : ¬ r.stage_failed = s := fun h => hs h.symm
          simp [List.filter_cons, hf, hs, hs2]
      · simp [List.filter_cons, hf]

theorem sum_map_add (l : List String) (f g : String → Nat) :
    (l.map (fun s => f s + g s)).sum = (l.map f).sum + (l.map g).sum := by
  induction l with
  | nil => rfl
  | cons a l ih =>
      simp only [List.map_cons, List.sum_cons, ih]
      omega

theorem sum_map_ite_eq_one :
    ∀ (l : List String), l.Nodup → ∀ x ∈ l,
      (l.map (fun s => if s = x then (1 : Nat) else 0)).sum = 1 := by
  intro l
  induction l with
  | nil => intro _ x hx; cases hx
  | cons a l ih =>
      intro hnd x hx
      rw [List.map_cons, List.sum_cons]
      by_cases hax : a = x
      · subst hax
        rw [if_pos rfl]
        have hnotin : a ∉ l := (List.nodup_cons.1 hnd).1
        have hz : (l.map (fun s => if s = a then (1 : Nat) else 0)).sum = 0 := by
          rw [List.sum_eq_zero]
          intro y hy
          simp only [List.mem_map] at hy
          obtain ⟨s, hs, rfl⟩ := hy
          have : s ≠ a := fun h => hnotin (h ▸ hs)
          simp [this]
        omega
      · have hxl : x ∈ l := by
          rcases List.mem_cons.1 hx with h | h
          · exact absurd h.symm hax
          · exact h
        have hax2 : a ≠ x := hax
        rw [if_neg hax2, ih (List.nodup_cons.1 hnd).2 x hxl]

/-- When every failed result names one of the five stages, the per-stage
counts partition the failed results. -/
theorem sum_stage_counts (rs : List ScriptResult)
    (hvalid : ∀ r ∈ rs, r.status = "failed" → r.stage_failed ∈ stage_names) :
    (stage_names.map (fun s =>
        (rs.filter (fun r => r.status == "failed" && r.stage_failed == s)).length)).sum
      = (rs.filter (fun r => r.status == "failed")).length := by
  induction rs with
  | nil => simp
  | cons r rs ih =>
      have hrs : ∀ x ∈ rs, x.status = "failed" → x.stage_failed ∈ stage_names :=
        fun x hx h => hvalid x (List.mem_cons_of_mem r hx) h
      by_cases hf : r.status = "failed"
      · have hmem := hvalid r (List.mem_cons_self r rs) hf
        have hcons : ∀ s, ((r :: rs).filter
            (fun x => x.status == "failed" && x.stage_failed == s)).length
            = (if s = r.stage_failed then 1 else 0)
              + (rs.filter (fun x => x.status == "failed" && x.stage_failed == s)).length := by
          intro s
          by_cases hs : s = r.stage_failed
          · simp [List.filter_cons, hf, hs]
            omega
          · have hs2 : ¬ r.stage_failed = s := fun h => hs h.symm
            simp [List.filter_cons, hf, hs2, hs]
        have hmap : stage_names.map (fun s => ((r :: rs).filter
            (fun x => x.status == "failed" && x.stage_failed == s)).length)
            = stage_names.map (fun s => (if s = r.stage_failed then 1 else 0)
              + (rs.filter (fun x => x.status == "failed" && x.stage_failed == s)).length) :=
          List.map_congr_left (fun s _ => hcons s)
        rw [hmap, sum_map_add, sum_map_ite_eq_one stage_names (by decide) _ hmem, ih hrs]
        simp [List.filter_cons, hf]
        omega
      · have hmap : stage_names.map (fun s => (List.filter
            (fun x => x.status == "failed" && x.stage_failed == s) (r :: rs)).length)
            = stage_names.map (fun s => (rs.filter
              (fun x => x.status == "failed" && x.stage_failed == s)).length) := by
          apply List.map_congr_left
          intro s _
          simp [List.filter_cons, hf]
        rw [hmap, ih hrs]
        simp [List.filter_cons, hf]

theorem length_eq_passed_add_failed (rs : List ScriptResult)
    (h : ∀ r ∈ rs, r.status = "passed" ∨ r.status = "failed") :
    rs.length = (rs.filter (fun r => r.status == "passed")).length
      + (rs.filter (fun r => r.status == "failed")).length := by
  induction rs with
  | nil => rfl
  | cons r rs ih =>
      have hrs : ∀ x ∈ rs, x.status = "passed" ∨ x.status = "failed" :=
        fun x hx => h x (List.mem_cons_of_mem r hx)
      rcases h r (List.mem_cons_self r rs) with hp | hf
      · have hnf : ¬ r.status = "failed" := by rw [hp]; decide
        simp only [List.filter_cons, List.length_cons, hp, hnf]
        simp only [ih hrs]
        simp
        omega
      · have hnp : ¬ r.status = "passed" := by rw [hf]; decide
        simp only [List.filter_cons, List.length_cons, hf, hnp]
        simp only [ih hrs]
        simp
        omega

end Scripts

/-- C8: the summary block computes the total program count, the passed count
(and failed count as their difference), and for every stage string the number
of failed programs recorded at that stage; when every result is passed or
failed with a valid stage, the total equals the passed count plus the sum of
the per-stage failed counts. -/
theorem C8_summary (overall_results : List Scripts.ScriptResult) :
    (Scripts.summarize overall_results).total_programs = overall_results.length ∧
    (Scripts.summarize overall_results).programs_passed
        = (overall_results.filter (fun r => r.status == "passed")).length ∧
    (Scripts.summarize overall_results).programs_failed
        = overall_results.length
          - (overall_results.filter (fun r => r.status == "passed")).length ∧
    (∀ s, (Scripts.summarize overall_results).failed_at s
        = (overall_results.filter
            (fun r => r.status == "failed" && r.stage_failed == s)).length) ∧
    ((∀ r ∈ overall_results, r.status = "passed" ∨
        (r.status = "failed" ∧ r.stage_failed ∈ Scripts.stage_names)) →
      (Scripts.summarize overall_results).total_programs
        = (Scripts.summarize overall_results).programs_passed
          + (Scripts.stage_names.map (Scripts.summarize overall_results).failed_at).sum) := by
  refine ⟨rfl, rfl, rfl, ?_, ?_⟩
  · intro s
    show (overall_results.foldl _ (fun _ => 0)) s = _
    rw [Scripts.failed_at_count]
    omega
  · intro hvalid
    have hvalid2 : ∀ r ∈ overall_results, r.status = "failed" →
        r.stage_failed ∈ Scripts.stage_names := by
      intro r hr hf
      rcases hvalid r hr with hp | ⟨-, hmem⟩
      · exact absurd (hp.symm.trans hf) (by decide)
      · exact hmem
    have hor : ∀ r ∈ overall_results, r.status = "passed" ∨ r.status = "failed" := by
      intro r hr
      rcases hvalid r hr with hp | ⟨hf, -⟩
      · exact Or.inl hp
      · exact Or.inr hf
    have hmap : Scripts.stage_names.map (Scripts.summarize overall_results).failed_at
        = Scripts.stage_names.map (fun s => (overall_results.filter
            (fun r => r.status == "failed" && r.stage_failed == s)).length) := by
      apply List.map_congr_left
      intro s _
      show (overall_results.foldl _ (fun _ => 0)) s = _
      rw [Scripts.failed_at_count]
      omega
    rw [hmap, Scripts.sum_stage_counts overall_results hvalid2]
    show overall_results.length = _
    exact Scripts.length_eq_passed_add_failed overall_results hor

/-- C8 witness: the sample list of four results (one passed, two failed at
transpile, one failed at rust_link). -/
theorem C8_summary_witness :
    (Scripts.summarize Scripts.sampleResults).total_programs
        = (Scripts.summarize Scripts.sampleResults).programs_passed
          + (Scripts.stage_names.map
              (Scripts.summarize Scripts.sampleResults).failed_at).sum ∧
    (Scripts.summarize Scripts.sampleResults).failed_at "transpile" = 2 := by
  constructor
  · exact (C8_summary Scripts.sampleResults).2.2.2.2 (by decide)
  · rw [(C8_summary Scripts.sampleResults).2.2.2.1 "transpile"]
    decide
